import Mathlib

/-!
Verification of the EIP-7883 ModExp gas-cost analysis tool.

The development shallowly embeds the program's core:
* `ModExpGasCalculator.calculate_eip2565_cost` / `calculate_eip7883_cost`
  (file `eip7883_analysis.py`), the two pure gas-cost functions, including
  the hexadecimal exponent parsing that both perform on entry;
* the per-record derived columns `cost_increase` and `cost_ratio` and the
  EIP-2565-vs-recorded-cost mismatch check of
  `ModExpDataAnalyzer._calculate_gas_costs`;
* the aggregate statistics of `ModExpDataAnalyzer.analyze_impact`;
* the percentile computation of `calculate_percentiles`
  (file `generate_markdown_report.py`), which calls `np.percentile` with
  numpy's default linear-interpolation method.

Python `int` arithmetic is embedded as `Int` (with `Int.fdiv` for `//`,
Python's floor division), byte lengths as `Nat`, and the floating-point
statistics as `ℚ` (exact on all concrete inputs examined here).
-/

/-- One step of binary recursion for `bitLength`, with an explicit fuel
argument so that the definition is structurally recursive (the fuel `n`
always suffices because `n / 2 < n` for `n > 0`). -/
def bitLengthAux : Nat → Nat → Nat
  | 0, _ => 0
  | fuel + 1, n => if n = 0 then 0 else bitLengthAux fuel (n / 2) + 1

/-- Python's `int.bit_length()` for non-negative integers: the number of
binary digits, with `bitLength 0 = 0`. -/
def bitLength (n : Nat) : Nat := bitLengthAux n n

/-- Value of one hexadecimal digit, as accepted by Python's `int(s, 16)`. -/
def hexDigitValue (c : Char) : Nat :=
  if '0' ≤ c ∧ c ≤ '9' then c.toNat - '0'.toNat
  else if 'a' ≤ c ∧ c ≤ 'f' then c.toNat - 'a'.toNat + 10
  else if 'A' ≤ c ∧ c ≤ 'F' then c.toNat - 'A'.toNat + 10
  else 0

/-- Python's `int(s, 16)` on the well-formed hexadecimal strings the data
set carries: an optional `0x`/`0X` prefix followed by hex digits. -/
def parseHex (s : String) : Nat :=
  let l := s.toList
  let l := if l.take 2 = ['0', 'x'] ∨ l.take 2 = ['0', 'X'] then l.drop 2 else l
  l.foldl (fun acc c => 16 * acc + hexDigitValue c) 0

/-- The exponent-decoding step both cost functions perform on entry:
`int(exponent_bytes, 16) if exponent_bytes else 0` (an empty string,
falsy in Python, yields 0). -/
def exponentOfHex (exponent_bytes : String) : Nat :=
  if exponent_bytes = "" then 0 else parseHex exponent_bytes

namespace ModExpGasCalculator

/-- `words = (max_length + 7) // 8`, the count of 8-byte words shared by
both cost formulas. -/
def wordCount (max_length : Nat) : Nat := (max_length + 7) / 8

/-- The three-tier EIP-2565 multiplication-complexity term of
`calculate_eip2565_cost` (all divisions are Python `//`, i.e. floor). -/
def eip2565_multiplication_complexity (max_length : Nat) : Int :=
  let words : Int := (wordCount max_length : Int)
  if max_length ≤ 64 then words ^ 2
  else if max_length ≤ 1024 then Int.fdiv (words ^ 2) 4 + 96 * words - 3072
  else Int.fdiv (words ^ 2) 16 + 480 * words - 199680

/-- The two-tier EIP-7883 multiplication-complexity term of
`calculate_eip7883_cost`. -/
def eip7883_multiplication_complexity (max_length : Nat) : Int :=
  if max_length ≤ 32 then 16
  else 2 * (wordCount max_length : Int) ^ 2

/-- The iteration count both functions compute before the `max(·, 1)`
clamp; the two variants differ only in the long-exponent `multiplier`
(8 for EIP-2565, 16 for EIP-7883).  `e &&& (2 ^ 256 - 1)` is Python's
`exponent_int & (2**256 - 1)`. -/
def iteration_count_raw (multiplier : Int) (exponent_length exponent_int : Nat) : Int :=
  if exponent_length ≤ 32 then
    if exponent_int = 0 then 0 else (bitLength exponent_int : Int) - 1
  else
    multiplier * ((exponent_length : Int) - 32) +
      ((bitLength (exponent_int &&& (2 ^ 256 - 1)) : Int) - 1)

/-- `calculate_eip2565_cost` after its exponent string has been decoded:
`max(200, (multiplication_complexity * max(iteration_count, 1)) // 3)`. -/
def calculate_eip2565_cost_int
    (base_length exponent_length modulus_length exponent_int : Nat) : Int :=
  max 200 (Int.fdiv
    (eip2565_multiplication_complexity (max base_length modulus_length) *
      max (iteration_count_raw 8 exponent_length exponent_int) 1) 3)

/-- `calculate_eip7883_cost` after its exponent string has been decoded:
`max(500, (multiplication_complexity * max(iteration_count, 1)) // 3)`. -/
def calculate_eip7883_cost_int
    (base_length exponent_length modulus_length exponent_int : Nat) : Int :=
  max 500 (Int.fdiv
    (eip7883_multiplication_complexity (max base_length modulus_length) *
      max (iteration_count_raw 16 exponent_length exponent_int) 1) 3)

/-- `ModExpGasCalculator.calculate_eip2565_cost` exactly as in the source:
takes the exponent as a hexadecimal string and decodes it first. -/
def calculate_eip2565_cost
    (base_length exponent_length modulus_length : Nat) (exponent_bytes : String) : Int :=
  calculate_eip2565_cost_int base_length exponent_length modulus_length
    (exponentOfHex exponent_bytes)

/-- `ModExpGasCalculator.calculate_eip7883_cost` exactly as in the source. -/
def calculate_eip7883_cost
    (base_length exponent_length modulus_length : Nat) (exponent_bytes : String) : Int :=
  calculate_eip7883_cost_int base_length exponent_length modulus_length
    (exponentOfHex exponent_bytes)

end ModExpGasCalculator

/-- One row of the loaded ModExp data frame, restricted to the five
columns the cost model and the impact statistics read: the three declared
byte lengths `Bsize`/`Esize`/`Msize`, the exponent hex string `E`, and the
gas cost the network actually charged, column `gas_costs`.  Provenance
columns (`tx_hash`, `block_number`) are opaque to everything verified
here and are omitted. -/
structure CallRecord where
  Bsize : Nat
  Esize : Nat
  Msize : Nat
  E : String
  gas_costs : Int
  deriving DecidableEq

/-- Column `eip2565_cost` added by `ModExpDataAnalyzer._calculate_gas_costs`. -/
def eip2565_cost (r : CallRecord) : Int :=
  ModExpGasCalculator.calculate_eip2565_cost r.Bsize r.Esize r.Msize r.E

/-- Column `eip7883_cost` added by `ModExpDataAnalyzer._calculate_gas_costs`. -/
def eip7883_cost (r : CallRecord) : Int :=
  ModExpGasCalculator.calculate_eip7883_cost r.Bsize r.Esize r.Msize r.E

/-- Column `cost_increase` of `_calculate_gas_costs`: the proposed cost
minus the *recorded* cost column `gas_costs` (not minus the computed
`eip2565_cost`). -/
def cost_increase (r : CallRecord) : Int := eip7883_cost r - r.gas_costs

/-- Column `cost_ratio` of `_calculate_gas_costs`: the proposed cost
divided by the *recorded* `gas_costs`, as exact rational arithmetic (the
source divides floats; on a zero denominator pandas produces `inf`
whereas `ℚ` yields 0 — no statement below evaluates that case). -/
def cost_ratio (r : CallRecord) : ℚ := (eip7883_cost r : ℚ) / (r.gas_costs : ℚ)

/-- The mismatch frame `_calculate_gas_costs` builds for its warning:
`self.df[self.df["eip2565_cost"] != self.df["gas_costs"]]`. -/
def mismatchRecords (records : List CallRecord) : List CallRecord :=
  records.filter fun r => decide (eip2565_cost r ≠ r.gas_costs)

/-- Insert into a list kept in ascending order (helper for the sorting
that numpy/pandas perform before percentile and median lookups). -/
def insertSorted (a : ℚ) : List ℚ → List ℚ
  | [] => [a]
  | b :: l => if a ≤ b then a :: b :: l else b :: insertSorted a l

/-- Ascending sort of a list of rationals by insertion. -/
def sortedAscending (l : List ℚ) : List ℚ := l.foldr insertSorted []

/-- `np.percentile(xs, p)` with numpy's default `linear` interpolation
method, which is what `calculate_percentiles` invokes: for `n` data
points the virtual index is `(n - 1) * p / 100`; writing `k` for its
value scaled by 100, the result interpolates between the sorted elements
at positions `k / 100` and `k / 100 + 1` with fractional weight
`(k % 100) / 100`.  `p` is a whole-number percentage, as in the source. -/
def percentileLinear (l : List ℚ) (p : Nat) : ℚ :=
  let s := sortedAscending l
  let k := (s.length - 1) * p
  let lo := s.getD (k / 100) 0
  let hi := s.getD (k / 100 + 1) lo
  lo + ((k % 100 : Nat) : ℚ) * (hi - lo) / 100

/-- Modelled from the spec: the nearest-rank percentile rule the
specification prescribes (element at 0-based index `⌊p/100 · n⌋` of the
ascending-sorted sequence).  This rule appears nowhere in the source —
`calculate_percentiles` calls `np.percentile`, i.e. `percentileLinear` —
and is defined here only to compare the two. -/
def nearestRankPercentile (l : List ℚ) (p : Nat) : ℚ :=
  let s := sortedAscending l
  s.getD (p * s.length / 100) 0

/-- One row of the CSV that `calculate_percentiles`
(`generate_markdown_report.py`) reads: only the `cost_increase` and
`cost_ratio` columns matter to it. -/
structure ReportRow where
  cost_increase : ℚ
  cost_ratio : ℚ
  deriving DecidableEq

/-- `df[df['cost_increase'] > 0]['cost_increase']`: the delta values of
the rows with a positive delta, in frame order. -/
def increaseValues (rows : List ReportRow) : List ℚ :=
  (rows.filter fun r => decide (0 < r.cost_increase)).map ReportRow.cost_increase

/-- `df[df['cost_increase'] > 0]['cost_ratio']`: the ratio values of the
rows with a positive delta, in frame order. -/
def ratioValuesOfIncreased (rows : List ReportRow) : List ℚ :=
  (rows.filter fun r => decide (0 < r.cost_increase)).map ReportRow.cost_ratio

/-- The `p`-th delta percentile `calculate_percentiles` reports (`none`
models the `{'no_increases': True}` early return on an empty filtered
frame). -/
def calculate_percentiles_delta (rows : List ReportRow) (p : Nat) : Option ℚ :=
  if (increaseValues rows).length = 0 then none
  else some (percentileLinear (increaseValues rows) p)

/-- The `p`-th cost-ratio percentile `calculate_percentiles` reports. -/
def calculate_percentiles_ratio (rows : List ReportRow) (p : Nat) : Option ℚ :=
  if (increaseValues rows).length = 0 then none
  else some (percentileLinear (ratioValuesOfIncreased rows) p)

/-- The failure signals relevant to aggregation: `emptyInputError` is the
error the specification names for aggregation over zero records;
`zeroDivisionError` is Python's `ZeroDivisionError`, which is what
`analyze_impact` actually raises on an empty frame (at the
`pct_calls_affected` line, `100 * calls_with_increase / total_calls`
with `total_calls = 0`; no `EmptyInputError` class exists anywhere in
the source). -/
inductive AggregationError where
  | emptyInputError
  | zeroDivisionError
  deriving DecidableEq

/-- Sum of a list of integers (pandas `.sum()`, which is 0 on empty). -/
def sumInt (l : List Int) : Int := l.foldr (· + ·) 0

/-- Maximum of a list of integers (pandas `.max()`; the empty case is
never reached below because `analyze_impact` fails first). -/
def maxIntD : List Int → Int
  | [] => 0
  | a :: l => l.foldl max a

/-- pandas `.median()`: middle element of the ascending-sorted values for
odd length, mean of the two middle elements for even length. -/
def medianQ (l : List ℚ) : ℚ :=
  let s := sortedAscending l
  let n := s.length
  if n % 2 = 1 then s.getD (n / 2) 0
  else (s.getD (n / 2 - 1) 0 + s.getD (n / 2) 0) / 2

/-- The cost-impact statistics `ModExpDataAnalyzer.analyze_impact` derives
from the `cost_increase` column.  The provenance statistics it also
returns (`unique_transactions`, `block_range`, the three per-operand
size counters, the optional per-address table) depend only on columns
opaque to the claims verified here and are omitted from the embedding. -/
structure ImpactStats where
  total_calls : Nat
  avg_cost_increase : ℚ
  median_cost_increase : ℚ
  max_cost_increase : Int
  total_cost_increase : Int
  calls_with_increase : Nat
  pct_calls_affected : ℚ
  deriving DecidableEq

/-- The statistics dict `analyze_impact` assembles from the
`cost_increase` column of a non-empty frame. -/
def impactStatsOf (records : List CallRecord) : ImpactStats :=
  let deltas := records.map cost_increase
  let calls_with_increase := (deltas.filter fun d => decide (0 < d)).length
  { total_calls := records.length
    avg_cost_increase := (sumInt deltas : ℚ) / (records.length : ℚ)
    median_cost_increase := medianQ (deltas.map fun d => (d : ℚ))
    max_cost_increase := maxIntD deltas
    total_cost_increase := sumInt deltas
    calls_with_increase := calls_with_increase
    pct_calls_affected := 100 * (calls_with_increase : ℚ) / (records.length : ℚ) }

/-- `ModExpDataAnalyzer.analyze_impact` on an already-augmented frame.
On an empty frame the Python builds NaN means and then raises
`ZeroDivisionError` at the `pct_calls_affected` line
(`100 * calls_with_increase / total_calls` with `total_calls = 0`), so no
result dict is ever returned; the embedding surfaces that as an
`Except.error`.  On a non-empty frame every statistic is well defined and
the dict is returned. -/
def analyze_impact (records : List CallRecord) : Except AggregationError ImpactStats :=
  if records.length = 0 then Except.error AggregationError.zeroDivisionError
  else Except.ok (impactStatsOf records)

/-- A record whose recorded `gas_costs` (1000) deliberately disagrees
with its computed EIP-2565 cost (200). -/
def recordBad : CallRecord :=
  { Bsize := 0, Esize := 0, Msize := 0, E := "0x0", gas_costs := 1000 }

/-- The same call with the recorded cost agreeing with the computed
EIP-2565 cost (200). -/
def recordGood : CallRecord :=
  { Bsize := 0, Esize := 0, Msize := 0, E := "0x0", gas_costs := 200 }

/-- The delta set `[10,10,20,30,40,50,60,70,80,90]` of the specification's
percentile example, as report rows with all deltas positive (the ratio
column is irrelevant to the delta percentile and set to 1). -/
def deltaRows : List ReportRow :=
  [{ cost_increase := 10, cost_ratio := 1 }, { cost_increase := 10, cost_ratio := 1 },
   { cost_increase := 20, cost_ratio := 1 }, { cost_increase := 30, cost_ratio := 1 },
   { cost_increase := 40, cost_ratio := 1 }, { cost_increase := 50, cost_ratio := 1 },
   { cost_increase := 60, cost_ratio := 1 }, { cost_increase := 70, cost_ratio := 1 },
   { cost_increase := 80, cost_ratio := 1 }, { cost_increase := 90, cost_ratio := 1 }]


open ModExpGasCalculator

/-! ### Helper lemmas shared by several claims -/

theorem fdiv_three_le {a b : Int} (h : a ≤ b) : Int.fdiv a 3 ≤ Int.fdiv b 3 := by
  rw [Int.fdiv_eq_ediv a (by norm_num), Int.fdiv_eq_ediv b (by norm_num)]
  exact Int.ediv_le_ediv (by norm_num) h

theorem fdiv_three_nonpos {a : Int} (h : a ≤ 0) : Int.fdiv a 3 ≤ 0 := by
  rw [Int.fdiv_eq_ediv a (by norm_num)]
  omega

theorem eip7883_mc_nonneg (L : Nat) : 0 ≤ eip7883_multiplication_complexity L := by
  unfold eip7883_multiplication_complexity
  split
  · norm_num
  · positivity

theorem eip7883_mc_mono {L L' : Nat} (h : L ≤ L') :
    eip7883_multiplication_complexity L ≤ eip7883_multiplication_complexity L' := by
  unfold eip7883_multiplication_complexity wordCount
  by_cases h2 : L' ≤ 32
  · rw [if_pos (le_trans h h2), if_pos h2]
  · rw [if_neg h2]
    by_cases h1 : L ≤ 32
    · rw [if_pos h1]
      have h5 : (5 : Nat) ≤ (L' + 7) / 8 := by omega
      have h5i : (5 : Int) ≤ (((L' + 7) / 8 : Nat) : Int) := by exact_mod_cast h5
      nlinarith
    · rw [if_neg h1]
      have hw : (L + 7) / 8 ≤ (L' + 7) / 8 := by omega
      have hwi : (((L + 7) / 8 : Nat) : Int) ≤ (((L' + 7) / 8 : Nat) : Int) := by
        exact_mod_cast hw
      have h0 : (0 : Int) ≤ (((L + 7) / 8 : Nat) : Int) := Int.natCast_nonneg _
      nlinarith

theorem iteration_count_raw_le_double (el e : Nat) :
    iteration_count_raw 8 el e ≤ iteration_count_raw 16 el e := by
  unfold iteration_count_raw
  by_cases h : el ≤ 32
  · rw [if_pos h, if_pos h]
  · rw [if_neg h, if_neg h]
    have h33 : (33 : Int) ≤ (el : Int) := by exact_mod_cast (show 33 ≤ el by omega)
    omega

theorem eip2565_mc_le_eip7883_mc (L : Nat) :
    eip2565_multiplication_complexity L ≤ eip7883_multiplication_complexity L := by
  unfold eip2565_multiplication_complexity eip7883_multiplication_complexity wordCount
  by_cases h32 : L ≤ 32
  · rw [if_pos (show L ≤ 64 by omega), if_pos h32]
    have h4 : (L + 7) / 8 ≤ 4 := by omega
    have h4i : (((L + 7) / 8 : Nat) : Int) ≤ 4 := by exact_mod_cast h4
    have h0 : (0 : Int) ≤ (((L + 7) / 8 : Nat) : Int) := Int.natCast_nonneg _
    nlinarith
  · rw [if_neg h32]
    by_cases h64 : L ≤ 64
    · rw [if_pos h64]
      have h0 : (0 : Int) ≤ (((L + 7) / 8 : Nat) : Int) := Int.natCast_nonneg _
      nlinarith
    · by_cases h1024 : L ≤ 1024
      · rw [if_neg h64, if_pos h1024]
        have h0 : (0 : Int) ≤ (((L + 7) / 8 : Nat) : Int) := Int.natCast_nonneg _
        have hd : Int.fdiv ((((L + 7) / 8 : Nat) : Int) ^ 2) 4 ≤
            (((L + 7) / 8 : Nat) : Int) ^ 2 := by
          rw [Int.fdiv_eq_ediv _ (by norm_num)]
          exact Int.ediv_le_self 4 (by positivity)
        nlinarith [sq_nonneg ((((L + 7) / 8 : Nat) : Int) - 48)]
      · rw [if_neg h64, if_neg h1024]
        have h0 : (0 : Int) ≤ (((L + 7) / 8 : Nat) : Int) := Int.natCast_nonneg _
        have hd : Int.fdiv ((((L + 7) / 8 : Nat) : Int) ^ 2) 16 ≤
            (((L + 7) / 8 : Nat) : Int) ^ 2 := by
          rw [Int.fdiv_eq_ediv _ (by norm_num)]
          exact Int.ediv_le_self 16 (by positivity)
        nlinarith [sq_nonneg ((((L + 7) / 8 : Nat) : Int) - 240)]

theorem cost_int_le (b el m e : Nat) :
    calculate_eip2565_cost_int b el m e ≤ calculate_eip7883_cost_int b el m e := by
  unfold calculate_eip2565_cost_int calculate_eip7883_cost_int
  refine max_le_max (by norm_num) (fdiv_three_le ?_)
  exact mul_le_mul (eip2565_mc_le_eip7883_mc _)
    (max_le_max (iteration_count_raw_le_double el e) le_rfl)
    (le_trans zero_le_one (le_max_right _ 1))
    (eip7883_mc_nonneg _)

theorem eip2565_cost_recordBad : eip2565_cost recordBad = 200 := by decide

theorem eip7883_cost_recordBad : eip7883_cost recordBad = 500 := by decide

theorem cost_increase_recordBad : cost_increase recordBad = -500 := by decide

theorem cost_increase_recordGood : cost_increase recordGood = 300 := by decide

theorem bitLengthAux_eq (fuel n : Nat) (h : n ≤ fuel) :
    bitLengthAux fuel n = if n = 0 then 0 else Nat.log2 n + 1 := by
  induction fuel generalizing n with
  | zero =>
    have hn : n = 0 := by omega
    subst hn
    rfl
  | succ fuel ih =>
    unfold bitLengthAux
    by_cases h0 : n = 0
    · simp [h0]
    · rw [if_neg h0, if_neg h0, ih (n / 2) (by omega)]
      by_cases h1 : n = 1
      · subst h1
        norm_num [Nat.log2]
      · have h2 : 2 ≤ n := by omega
        rw [if_neg (by omega : ¬ n / 2 = 0)]
        conv_rhs => rw [Nat.log2]
        rw [if_pos (by omega : n ≥ 2)]

/-- Validation of the fuel-based `bitLength`: it agrees with the
`Nat.log2` characterisation of Python's `int.bit_length` (the fuel `n`
always suffices). -/
theorem bitLength_eq_log2 (n : Nat) :
    bitLength n = if n = 0 then 0 else Nat.log2 n + 1 :=
  bitLengthAux_eq n n le_rfl

/-! ### The claims -/

/-- C1: the worked end-to-end cases hold — for each input
(base_length, exponent_length, modulus_length, exponent hex) the pair of
results of `calculate_eip2565_cost` and `calculate_eip7883_cost` is
(341, 682) for (64, 3, 64, 0x10001), (1365, 10922) for
(256, 3, 256, 0x10001), (200, 500) for (32, 32, 32, 0x10001) and
(200, 500) for (0, 0, 0, 0x0). -/
theorem claim_C1_worked_cases :
    (calculate_eip2565_cost 64 3 64 ("0x10001") = 341 ∧
      calculate_eip7883_cost 64 3 64 ("0x10001") = 682) ∧
    (calculate_eip2565_cost 256 3 256 ("0x10001") = 1365 ∧
      calculate_eip7883_cost 256 3 256 ("0x10001") = 10922) ∧
    (calculate_eip2565_cost 32 32 32 ("0x10001") = 200 ∧
      calculate_eip7883_cost 32 32 32 ("0x10001") = 500) ∧
    (calculate_eip2565_cost 0 0 0 ("0x0") = 200 ∧
      calculate_eip7883_cost 0 0 0 ("0x0") = 500) := by
  decide

/-- C2 counterexample: on the delta set [10,10,20,30,40,50,60,70,80,90]
(all positive, n = 10) the 50th delta percentile computed by the code is
not 60 as the claim asserts — `calculate_percentiles` calls
`np.percentile`, whose default linear-interpolation method yields 45
(and even the nearest-rank rule the claim states would give the element
at index 5 of the sorted list, which is 50, not 60). -/
theorem claim_C2_counterexample :
    calculate_percentiles_delta deltaRows 50 ≠ some 60 := by
  norm_num [calculate_percentiles_delta, increaseValues, percentileLinear, sortedAscending,
    insertSorted, deltaRows, List.filter, List.foldr, List.getD]

/-- C2 amended: percentiles of `cost_increase` (and `cost_ratio`) over
records with positive delta are computed by numpy's default
linear-interpolation method at virtual index (n−1)·p/100 on the
ascending-sorted sequence, not by nearest rank; on the delta set
[10,10,20,30,40,50,60,70,80,90] the 50th percentile equals 45, while the
nearest-rank rule at index ⌊p/100·n⌋ stated by the specification would
give 50. -/
theorem claim_C2_amended :
    calculate_percentiles_delta deltaRows 50 = some 45 ∧
    nearestRankPercentile (increaseValues deltaRows) 50 = 50 := by
  constructor
  · norm_num [calculate_percentiles_delta, increaseValues, percentileLinear, sortedAscending,
      insertSorted, deltaRows, List.filter, List.foldr, List.getD]
  · norm_num [nearestRankPercentile, increaseValues, sortedAscending, insertSorted, deltaRows,
      List.filter, List.foldr, List.getD]

/-- C3 counterexample: increasing `base_length` from 64 to 65 (all other
arguments fixed) makes `calculate_eip2565_cost` return a strictly
smaller value (200 instead of 213, because the second-tier
multiplication-complexity polynomial is negative at 9 words), refuting
monotonicity for the legacy variant. -/
theorem claim_C3_counterexample :
    calculate_eip2565_cost 65 2 64 ("0x400") < calculate_eip2565_cost 64 2 64 ("0x400") := by
  decide

/-- C3 amended: the monotonicity property holds for
`calculate_eip7883_cost` — for fixed exponent length and exponent value,
increasing `base_length` or `modulus_length` never decreases the
proposed cost — but not for `calculate_eip2565_cost`, which can decrease
when max(base_length, modulus_length) crosses the 64-byte tier boundary
(see the counterexample). -/
theorem claim_C3_amended (b b' m m' el e : Nat) (hb : b ≤ b') (hm : m ≤ m') :
    calculate_eip7883_cost_int b el m e ≤ calculate_eip7883_cost_int b' el m' e := by
  unfold calculate_eip7883_cost_int
  refine max_le_max le_rfl (fdiv_three_le ?_)
  exact mul_le_mul_of_nonneg_right (eip7883_mc_mono (max_le_max hb hm))
    (le_trans zero_le_one (le_max_right _ 1))

/-- C3 amended witness: instantiation at base 32 → 64 and modulus
32 → 64 with exponent 0x10001 of length 3. -/
theorem claim_C3_amended_witness :
    32 ≤ 64 ∧ 32 ≤ 64 ∧
    calculate_eip7883_cost_int 32 3 32 65537 ≤ calculate_eip7883_cost_int 64 3 64 65537 :=
  ⟨by norm_num, by norm_num, claim_C3_amended 32 64 32 64 3 65537 (by norm_num) (by norm_num)⟩

/-- C4 counterexample: on a record whose recorded `gas_costs` (1000)
differs from the computed legacy cost (200), the code's `cost_increase`
is 500 − 1000 = −500: it is negative, it differs from
proposed − legacy = 300, and `cost_ratio` is 500/1000 rather than
500/200 — the per-record delta and ratio are computed against the
recorded cost, not the computed legacy cost. -/
theorem claim_C4_counterexample :
    cost_increase recordBad < 0 ∧
    cost_increase recordBad ≠ eip7883_cost recordBad - eip2565_cost recordBad ∧
    cost_ratio recordBad ≠ (eip7883_cost recordBad : ℚ) / (eip2565_cost recordBad : ℚ) := by
  refine ⟨by decide, by decide, ?_⟩
  unfold cost_ratio
  rw [eip7883_cost_recordBad, eip2565_cost_recordBad,
    show recordBad.gas_costs = 1000 from rfl]
  norm_num

/-- C4 amended: per record, `cost_increase` equals the proposed cost
minus the *recorded* `gas_costs` and `cost_ratio` equals the proposed
cost divided by the recorded `gas_costs`; whenever the recorded cost
agrees with the computed legacy cost, the delta equals
proposed − legacy, is non-negative, and the ratio's denominator is
non-zero. -/
theorem claim_C4_amended (r : CallRecord) :
    cost_increase r = eip7883_cost r - r.gas_costs ∧
    cost_ratio r = (eip7883_cost r : ℚ) / (r.gas_costs : ℚ) ∧
    (r.gas_costs = eip2565_cost r →
      cost_increase r = eip7883_cost r - eip2565_cost r ∧
      0 ≤ cost_increase r ∧ r.gas_costs ≠ 0) := by
  refine ⟨rfl, rfl, fun hrec => ?_⟩
  have hle : eip2565_cost r ≤ eip7883_cost r :=
    cost_int_le r.Bsize r.Esize r.Msize (exponentOfHex r.E)
  have h200 : (200 : Int) ≤ eip2565_cost r := le_max_left _ _
  unfold cost_increase
  rw [hrec]
  exact ⟨rfl, by omega, by omega⟩

/-- C4 amended witness: instantiation at a record whose recorded cost
agrees with the computed legacy cost (200). -/
theorem claim_C4_amended_witness :
    cost_increase recordGood = eip7883_cost recordGood - eip2565_cost recordGood ∧
    0 ≤ cost_increase recordGood ∧ recordGood.gas_costs ≠ 0 :=
  (claim_C4_amended recordGood).2.2 (by decide)

/-- C5: the floor property — for every non-negative input,
`calculate_eip2565_cost` returns at least 200 and
`calculate_eip7883_cost` returns at least 500. -/
theorem claim_C5_floors (b el m e : Nat) :
    200 ≤ calculate_eip2565_cost_int b el m e ∧ 500 ≤ calculate_eip7883_cost_int b el m e :=
  ⟨le_max_left _ _, le_max_left _ _⟩

/-- C6: for every input with exponent_length > 32, both cost functions
compute the iteration count as
multiplier · (exponent_length − 32) + bit_length(exponent & (2^256 − 1)) − 1
with multiplier 8 for the legacy variant and 16 for the proposed one,
and clamp the iteration count at 1 before the final multiply and
floor-divide by 3. -/
theorem claim_C6_long_exponent (b el m e : Nat) (h : 32 < el) :
    calculate_eip2565_cost_int b el m e =
      max 200 (Int.fdiv (eip2565_multiplication_complexity (max b m) *
        max (8 * ((el : Int) - 32) + ((bitLength (e &&& (2 ^ 256 - 1)) : Int) - 1)) 1) 3) ∧
    calculate_eip7883_cost_int b el m e =
      max 500 (Int.fdiv (eip7883_multiplication_complexity (max b m) *
        max (16 * ((el : Int) - 32) + ((bitLength (e &&& (2 ^ 256 - 1)) : Int) - 1)) 1) 3) := by
  have h' : ¬ el ≤ 32 := by omega
  unfold calculate_eip2565_cost_int calculate_eip7883_cost_int iteration_count_raw
  simp only [if_neg h']
  exact ⟨trivial, trivial⟩

/-- C6 witness: instantiation at (1, 33, 1, 0) — exponent length 33,
exponent value 0 (whose masked bit length is 0, so the −1 drives the raw
iteration count to 8·1 − 1 = 7 and 16·1 − 1 = 15 respectively). -/
theorem claim_C6_long_exponent_witness :
    32 < 33 ∧
    (calculate_eip2565_cost_int 1 33 1 0 =
      max 200 (Int.fdiv (eip2565_multiplication_complexity (max 1 1) *
        max (8 * ((33 : Int) - 32) + ((bitLength (0 &&& (2 ^ 256 - 1)) : Int) - 1)) 1) 3) ∧
     calculate_eip7883_cost_int 1 33 1 0 =
      max 500 (Int.fdiv (eip7883_multiplication_complexity (max 1 1) *
        max (16 * ((33 : Int) - 32) + ((bitLength (0 &&& (2 ^ 256 - 1)) : Int) - 1)) 1) 3)) :=
  ⟨by norm_num, claim_C6_long_exponent 1 33 1 0 (by norm_num)⟩

/-- C7 counterexample: aggregating over the empty sequence fails, but
with Python's `ZeroDivisionError` (raised by the `pct_calls_affected`
division `100 * calls_with_increase / total_calls` with
`total_calls = 0`), not with an `EmptyInputError` — no such error class
exists anywhere in the source. -/
theorem claim_C7_counterexample :
    analyze_impact [] = Except.error AggregationError.zeroDivisionError ∧
    analyze_impact [] ≠ Except.error AggregationError.emptyInputError := by
  constructor
  · simp [analyze_impact]
  · simp [analyze_impact]

/-- C7 amended: aggregating over an empty sequence fails — it never
returns zeroed or NaN statistics — but the failure is a
`ZeroDivisionError` from the percentage-affected division, not a
dedicated `EmptyInputError`. -/
theorem claim_C7_amended :
    analyze_impact [] = Except.error AggregationError.zeroDivisionError ∧
    ∀ s : ImpactStats, analyze_impact [] ≠ Except.ok s := by
  refine ⟨by simp [analyze_impact], fun s => ?_⟩
  simp [analyze_impact]

/-- C8 counterexample: feeding the single record whose recorded cost
(1000) disagrees with the computed legacy cost (200) does surface
exactly one mismatch entry and does not abort, but the remaining
aggregate statistics are NOT the same as without the disagreement: the
average cost increase is −500 with the disagreeing record and 300 with
the agreeing one, because `cost_increase` is computed against the
recorded `gas_costs`. -/
theorem claim_C8_counterexample :
    (mismatchRecords [recordBad]).length = 1 ∧
    (∃ s, analyze_impact [recordBad] = Except.ok s) ∧
    (analyze_impact [recordBad]).toOption.map ImpactStats.avg_cost_increase ≠
      (analyze_impact [recordGood]).toOption.map ImpactStats.avg_cost_increase := by
  refine ⟨by decide, ⟨impactStatsOf [recordBad], by unfold analyze_impact; simp⟩, ?_⟩
  have hbad : analyze_impact [recordBad] = Except.ok (impactStatsOf [recordBad]) := by
    unfold analyze_impact; simp
  have hgood : analyze_impact [recordGood] = Except.ok (impactStatsOf [recordGood]) := by
    unfold analyze_impact; simp
  rw [hbad, hgood]
  have h1 : (impactStatsOf [recordBad]).avg_cost_increase = -500 := by
    norm_num [impactStatsOf, sumInt, cost_increase_recordBad]
  have h2 : (impactStatsOf [recordGood]).avg_cost_increase = 300 := by
    norm_num [impactStatsOf, sumInt, cost_increase_recordGood]
  simp only [Except.toOption, Option.map, h1, h2]
  norm_num

/-- C8 amended: the aggregator compares the computed legacy cost with
`recorded_cost` on every record and surfaces the mismatching records as
a non-fatal signal — a sequence containing exactly one disagreeing
record yields exactly one mismatch entry and the run never aborts; the
aggregate statistics, however, are computed against the recorded cost,
so they are not unaffected by the disagreement (see the
counterexample). -/
theorem claim_C8_amended (records : List CallRecord) (r : CallRecord)
    (h1 : ∀ x ∈ records, eip2565_cost x = x.gas_costs)
    (h2 : eip2565_cost r ≠ r.gas_costs) :
    (mismatchRecords (r :: records)).length = 1 ∧
    ∃ s, analyze_impact (r :: records) = Except.ok s := by
  constructor
  · simpa [mismatchRecords, List.filter_cons, h2] using h1
  · refine ⟨impactStatsOf (r :: records), ?_⟩
    unfold analyze_impact
    simp

/-- C8 amended witness: the two-record sequence [recordBad, recordGood]
contains exactly one disagreeing record and aggregates without
aborting. -/
theorem claim_C8_amended_witness :
    (∀ x ∈ [recordGood], eip2565_cost x = x.gas_costs) ∧
    eip2565_cost recordBad ≠ recordBad.gas_costs ∧
    ((mismatchRecords (recordBad :: [recordGood])).length = 1 ∧
      ∃ s, analyze_impact (recordBad :: [recordGood]) = Except.ok s) :=
  ⟨by decide, by decide, claim_C8_amended [recordGood] recordBad (by decide) (by decide)⟩

/-- C9: whenever 64 < max(base_length, modulus_length) ≤ 232, the legacy
cost is exactly 200 regardless of the exponent arguments — the
second-tier polynomial words²//4 + 96·words − 3072 is negative for every
word count from 9 to 29, and the 200 floor absorbs the negative
product. -/
theorem claim_C9_second_tier_floor (b el m e : Nat)
    (h1 : 64 < max b m) (h2 : max b m ≤ 232) :
    calculate_eip2565_cost_int b el m e = 200 := by
  have hmc : eip2565_multiplication_complexity (max b m) < 0 := by
    unfold eip2565_multiplication_complexity wordCount
    rw [if_neg (by omega), if_pos (by omega)]
    have h29 : (((max b m + 7) / 8 : Nat) : Int) ≤ 29 := by
      exact_mod_cast (show (max b m + 7) / 8 ≤ 29 by omega)
    have h0 : (0 : Int) ≤ (((max b m + 7) / 8 : Nat) : Int) := Int.natCast_nonneg _
    have hsq : (((max b m + 7) / 8 : Nat) : Int) ^ 2 ≤ 841 := by nlinarith
    have hdd : Int.fdiv ((((max b m + 7) / 8 : Nat) : Int) ^ 2) 4 ≤ 210 := by
      rw [Int.fdiv_eq_ediv _ (by norm_num)]
      have := Int.ediv_le_ediv (show (0 : Int) < 4 by norm_num) hsq
      omega
    omega
  have hic : (0 : Int) < max (iteration_count_raw 8 el e) 1 :=
    lt_of_lt_of_le one_pos (le_max_right _ _)
  have hprod :
      eip2565_multiplication_complexity (max b m) *
        max (iteration_count_raw 8 el e) 1 < 0 :=
    mul_neg_of_neg_of_pos hmc hic
  have hdiv := fdiv_three_nonpos (le_of_lt hprod)
  unfold calculate_eip2565_cost_int
  exact max_eq_left (le_trans hdiv (by norm_num))

/-- C9 witness: instantiation at base_length 100 (word count 14),
exponent length 5 and exponent value 3. -/
theorem claim_C9_second_tier_floor_witness :
    64 < max 100 0 ∧ max 100 0 ≤ 232 ∧ calculate_eip2565_cost_int 100 5 0 3 = 200 :=
  ⟨by decide, by decide, claim_C9_second_tier_floor 100 5 0 3 (by decide) (by decide)⟩

/-- C10: for every non-negative input, the proposed EIP-7883 cost is at
least the legacy EIP-2565 cost — the delta of the two computed model
costs is non-negative universally. -/
theorem claim_C10_delta_nonneg (b el m e : Nat) :
    calculate_eip2565_cost_int b el m e ≤ calculate_eip7883_cost_int b el m e :=
  cost_int_le b el m e
